import Mathlib

/-!
Verification of the reconciliation / split-generation core of `ynab-itemized`.

The Python source is shallowly embedded: `Decimal` values become `ℚ` (Python's
`decimal` module is exact decimal arithmetic, a subset of the rationals),
YNAB milliunit amounts stay `ℚ` where the source keeps them as `Decimal`,
`datetime.date` values become `ℤ` day ordinals (so `timedelta(days=k)`
arithmetic is integer addition and `(a - b).days` is integer subtraction),
optional fields become `Option`, and code that can raise returns
`Except String`.  Functions keep the source's names and control flow.
-/

namespace YnabItemized

/-- Python `int(...)` applied to an exact decimal value truncates toward
zero: floor for nonnegative values, ceiling for negative ones. -/
def truncQ (q : ℚ) : ℤ := if 0 ≤ q then ⌊q⌋ else ⌈q⌉

/-- Equality of `Except` results is decidable when both components' is;
used to evaluate embedded fallible functions on concrete inputs. -/
instance {ε α : Type} [DecidableEq ε] [DecidableEq α] : DecidableEq (Except ε α) :=
  fun x y =>
    match x, y with
    | .ok a, .ok b =>
        if h : a = b then .isTrue (by rw [h])
        else .isFalse (fun hc => h (by cases hc; rfl))
    | .error a, .error b =>
        if h : a = b then .isTrue (by rw [h])
        else .isFalse (fun hc => h (by cases hc; rfl))
    | .ok _, .error _ => .isFalse (fun hc => Except.noConfusion hc)
    | .error _, .ok _ => .isFalse (fun hc => Except.noConfusion hc)

/-! ## Data model (`models/transaction.py`)

Pydantic models.  Fields keep their source names, defaults follow the
pydantic `Field(default=...)` declarations.  The open-ended `metadata`
dictionaries are modelled as string-to-string association lists (the
source only ever stores strings in them). -/

/-- `datetime.date`, as in `models/transaction.py`.  Only constructed and
carried around by the code under verification, never computed with, so a
plain year/month/day record suffices. -/
structure PyDate where
  year : ℤ
  month : ℕ
  day : ℕ
deriving DecidableEq, Repr

/-- `TransactionItem` (`models/transaction.py`): one line of a receipt. -/
structure TransactionItem where
  name : String
  amount : ℚ
  quantity : Option ℤ := some 1
  unit_price : Option ℚ := none
  category : Option String := none
  subcategory : Option String := none
  brand : Option String := none
  sku : Option String := none
  barcode : Option String := none
  discount_amount : Option ℚ := some 0
  tax_amount : Option ℚ := some 0
  notes : Option String := none
  metadata : List (String × String) := []
deriving DecidableEq, Repr

/-- The `calculate_unit_price` model validator of `TransactionItem`:
derive `unit_price = amount / quantity` when it was not supplied. -/
def TransactionItem.calculate_unit_price (item : TransactionItem) : TransactionItem :=
  match item.unit_price with
  | some _ => item
  | none =>
      let quantity := item.quantity.getD 1
      if 0 < quantity then
        { item with unit_price := some (item.amount / (quantity : ℚ)) }
      else item

/-- `YNABSubtransaction` (`models/transaction.py`): one split of a YNAB
transaction.  `amount` is a `Decimal` holding milliunits. -/
structure YNABSubtransaction where
  subtransaction_id : Option String := none
  amount : ℚ
  memo : Option String := none
  payee_id : Option String := none
  payee_name : Option String := none
  category_id : Option String := none
  category_name : Option String := none
  transfer_account_id : Option String := none
  transfer_transaction_id : Option String := none
  deleted : Bool := false
deriving DecidableEq, Repr

/-- `YNABTransaction` (`models/transaction.py`). `amount` is milliunits. -/
structure YNABTransaction where
  ynab_id : String
  account_id : String
  category_id : Option String := none
  payee_name : Option String := none
  memo : Option String := none
  amount : ℚ
  date : PyDate
  cleared : String := "uncleared"
  approved : Bool := true
  flag_color : Option String := none
  import_id : Option String := none
  subtransactions : List YNABSubtransaction := []
deriving DecidableEq, Repr

/-- `ItemizedTransaction` (`models/transaction.py`): the reconciliation unit. -/
structure ItemizedTransaction where
  ynab_transaction : Option YNABTransaction := none
  items : List TransactionItem := []
  transaction_date : Option PyDate := none
  total_amount : Option ℚ := none
  merchant_name : Option String := none
  match_status : String := "unmatched"
  match_confidence : Option ℚ := none
  match_method : Option String := none
  match_notes : Option String := none
  source : Option String := none
  source_transaction_id : Option String := none
  subtotal : Option ℚ := none
  total_tax : Option ℚ := none
  total_discount : Option ℚ := none
  tip_amount : Option ℚ := some 0
  store_name : Option String := none
  store_location : Option String := none
  store_phone : Option String := none
  receipt_number : Option String := none
  payment_method : Option String := none
  cashier : Option String := none
  register_number : Option String := none
  receipt_image_path : Option String := none
  notes : Option String := none
  tags : List String := []
  metadata : List (String × String) := []
deriving DecidableEq, Repr

/-! ## Subtransaction (split) builder (`services/subtransaction.py`)

`SubtransactionService.create_subtransactions_from_items` and its helper
`_validate_subtransaction_amounts`.  The helper mutates the Python list in
place (possibly adjusting the last element) or raises `ValueError`; it is
embedded as a function returning the adjusted list in `Except String`. -/

/-- The per-item subtransaction built in the loop of
`create_subtransactions_from_items` (lines 55-67):
`amount_milliunits = int(item.amount * 1000)` then negated absolute value,
memo the item's name, category left for the user. -/
def itemSubtransaction (item : TransactionItem) : YNABSubtransaction :=
  { amount := (((-((truncQ (item.amount * 1000)).natAbs : ℤ)) : ℤ) : ℚ)
    memo := some item.name
    category_id := none }

/-- The list built by `create_subtransactions_from_items` before the final
sum validation: one subtransaction per item in order, then an optional
"Tax" entry (`-int(total_tax * 1000)`) when requested and `total_tax` is
truthy, then an optional positive "Discount" entry
(`int(total_discount * 1000)`) when requested and `total_discount` is
truthy. -/
def emittedSubtransactions (t : ItemizedTransaction)
    (include_tax_subtransaction include_discount_subtransaction : Bool) :
    List YNABSubtransaction :=
  let subs := t.items.map itemSubtransaction
  let subs :=
    match t.total_tax with
    | some tax =>
        if include_tax_subtransaction ∧ tax ≠ 0 then
          subs ++ [{ amount := ((-(truncQ (tax * 1000)) : ℤ) : ℚ)
                     memo := some "Tax", category_id := none }]
        else subs
    | none => subs
  match t.total_discount with
  | some disc =>
      if include_discount_subtransaction ∧ disc ≠ 0 then
        subs ++ [{ amount := ((truncQ (disc * 1000) : ℤ) : ℚ)
                   memo := some "Discount", category_id := none }]
      else subs
  | none => subs

/-- `subtransactions[-1].amount += adjustment`: the in-place adjustment of
the last element of the Python list. -/
def adjustLast : List YNABSubtransaction → ℚ → List YNABSubtransaction
  | [], _ => []
  | [s], adjustment => [{ s with amount := s.amount + adjustment }]
  | s :: s' :: rest, adjustment => s :: adjustLast (s' :: rest) adjustment

/-- `_validate_subtransaction_amounts` (lines 100-139): returns immediately
on an empty list; otherwise compares the sum with
`-int(expected_total * 1000)`, absorbs a difference of at most 10
milliunits (1 cent) into the last subtransaction, and raises on anything
larger. -/
def validateSubtransactionAmounts (subtransactions : List YNABSubtransaction)
    (expected_total : ℚ) : Except String (List YNABSubtransaction) :=
  if subtransactions = [] then .ok subtransactions
  else
    let subtx_sum : ℚ := (subtransactions.map (·.amount)).sum
    let expected_milliunits : ℚ := ((-(truncQ (expected_total * 1000)) : ℤ) : ℚ)
    if subtx_sum = expected_milliunits then .ok subtransactions
    else
      let diff : ℚ := |subtx_sum - expected_milliunits|
      if diff ≤ 10 then
        .ok (adjustLast subtransactions (expected_milliunits - subtx_sum))
      else
        .error "Subtransaction amounts don't sum to transaction total"

/-- `create_subtransactions_from_items` (lines 32-98): emit the item, tax
and discount subtransactions, then validate against `total_amount` when it
is truthy (set and nonzero — Python `if itemized_transaction.total_amount:`). -/
def create_subtransactions_from_items (itemized_transaction : ItemizedTransaction)
    (include_tax_subtransaction : Bool := true)
    (include_discount_subtransaction : Bool := true) :
    Except String (List YNABSubtransaction) :=
  let subtransactions := emittedSubtransactions itemized_transaction
    include_tax_subtransaction include_discount_subtransaction
  match itemized_transaction.total_amount with
  | some a =>
      if a = 0 then .ok subtransactions
      else validateSubtransactionAmounts subtransactions a
  | none => .ok subtransactions

/-! ## Validation utilities (`utils/validation.py`)

`validate_transaction_totals` reports `(ok, error-message list)`.  Its
messages interpolate `Decimal` values; the embedding keeps each message as
a structured value instead of a rendered string.  The function reads
`transaction.ynab_transaction.amount` without a `None` check (line 52-54),
so on an unlinked transaction Python raises `AttributeError`; embedded as
an `Except.error`. -/

/-- One entry of the `errors` list of `validate_transaction_totals`,
with the interpolated values carried as fields. -/
inductive ValidationIssue : Type
  | noItems : ValidationIssue
  | subtotalMismatch (declared calculated : ℚ) : ValidationIssue
  | taxMismatch (declared calculated : ℚ) : ValidationIssue
  | discountMismatch (declared calculated : ℚ) : ValidationIssue
  | ynabTotalMismatch (ynabAmount calculated : ℚ) : ValidationIssue
deriving DecidableEq, Repr

/-- `validate_transaction_totals` (`utils/validation.py`, lines 9-68). -/
def validate_transaction_totals (transaction : ItemizedTransaction) :
    Except String (Bool × List ValidationIssue) :=
  if transaction.items = [] then .ok (false, [ValidationIssue.noItems])
  else
    let calculated_subtotal : ℚ := (transaction.items.map (·.amount)).sum
    let calculated_tax : ℚ := (transaction.items.map (fun item => item.tax_amount.getD 0)).sum
    let calculated_discount : ℚ :=
      (transaction.items.map (fun item => item.discount_amount.getD 0)).sum
    let errors : List ValidationIssue :=
      (match transaction.subtotal with
       | some declared =>
           if |declared - calculated_subtotal| > 0.01 then
             [ValidationIssue.subtotalMismatch declared calculated_subtotal]
           else []
       | none => []) ++
      (match transaction.total_tax with
       | some declared =>
           if |declared - calculated_tax| > 0.01 then
             [ValidationIssue.taxMismatch declared calculated_tax]
           else []
       | none => []) ++
      (match transaction.total_discount with
       | some declared =>
           if |declared - calculated_discount| > 0.01 then
             [ValidationIssue.discountMismatch declared calculated_discount]
           else []
       | none => [])
    match transaction.ynab_transaction with
    | none => .error "AttributeError: 'NoneType' object has no attribute 'amount'"
    | some ynab =>
        let ynab_amount : ℚ := |ynab.amount / 1000|
        let calculated_total : ℚ :=
          calculated_subtotal + calculated_tax - calculated_discount +
            transaction.tip_amount.getD 0
        let errors :=
          errors ++
            (if |ynab_amount - calculated_total| > 0.01 then
              [ValidationIssue.ynabTotalMismatch ynab_amount calculated_total]
            else [])
        .ok (errors = [], errors)

/-! ## Transaction matcher (`services/matching.py`)

The matcher works on the SQLAlchemy rows of `database/models.py`.  The
database session is modelled as the list of stored `YNABTransactionDB`
rows; `db.query(...).filter(...)` becomes `List.filter`.  Dates are day
ordinals (`ℤ`), so `timedelta(days=k)` is `± k` and `(a - b).days` is
subtraction.  `difflib.SequenceMatcher(None, a, b).ratio()` is Python
standard library, external to this repository: it enters the embedding as
an explicit function parameter `sim` (the score theorems assume only its
documented range `[0, 1]`). -/

/-- `YNABTransactionDB` (`database/models.py`): the stored mirror of a
YNAB transaction.  `amount` is the `Numeric(15, 3)` column, holding the
milliunit amount exactly as delivered by the YNAB API. -/
structure YNABTransactionDB where
  id : String
  ynab_id : String
  account_id : String
  category_id : Option String := none
  payee_name : Option String := none
  memo : Option String := none
  amount : ℚ
  date : ℤ
  cleared : String := "uncleared"
  approved : Bool := true
  flag_color : Option String := none
  import_id : Option String := none
  has_subtransactions : Bool := false
deriving DecidableEq, Repr

/-- `ItemizedTransactionDB` (`database/models.py`): the stored itemized
transaction.  `total_amount` is the major-unit receipt total. -/
structure ItemizedTransactionDB where
  id : String
  ynab_transaction_id : Option String := none
  transaction_date : ℤ
  total_amount : ℚ
  merchant_name : Option String := none
  match_status : String := "unmatched"
  match_confidence : Option ℚ := none
  match_method : Option String := none
  match_notes : Option String := none
  source : String := "manual"
  source_transaction_id : Option String := none
  subtotal : Option ℚ := none
  total_tax : Option ℚ := none
  total_discount : Option ℚ := none
  tip_amount : Option ℚ := some 0
deriving DecidableEq, Repr

/-- `TransactionMatchDB` (`database/models.py`). -/
structure TransactionMatchDB where
  id : String
  ynab_transaction_id : String
  itemized_transaction_id : String
  match_score : ℚ
  match_method : String
  status : String := "candidate"
  reviewed_by : Option String := none
deriving DecidableEq, Repr

/-- The date-proximity term of `_calculate_match_score` (lines 92-101):
30% weight, stepped down with the absolute day difference. -/
def dateTerm (date_diff : ℕ) : ℚ :=
  if date_diff = 0 then 0.3
  else if date_diff ≤ 1 then 0.25
  else if date_diff ≤ 3 then 0.15
  else if date_diff ≤ 7 then 0.05
  else 0

/-- The amount-proximity term of `_calculate_match_score` (lines 103-116):
40% weight, stepped down with the relative amount difference. -/
def amountTerm (amount_ratio : ℚ) : ℚ :=
  if amount_ratio = 0 then 0.4
  else if amount_ratio ≤ 0.01 then 0.35
  else if amount_ratio ≤ 0.05 then 0.25
  else if amount_ratio ≤ 0.10 then 0.15
  else 0

/-- `_calculate_match_score` (lines 86-125).  `sim` stands for
`difflib.SequenceMatcher(None, ·, ·).ratio()`.  The amount ratio divides
by `max(itemized_amount, ynab_amount)`; when both amounts are zero the
Python `Decimal` division raises, embedded as the error case.  The payee
term contributes only when both strings are truthy (present and
non-empty). -/
def calculate_match_score (sim : String → String → ℚ)
    (itemized : ItemizedTransactionDB) (ynab : YNABTransactionDB) :
    Except String ℚ :=
  let date_diff := (itemized.transaction_date - ynab.date).natAbs
  let date_score := dateTerm date_diff
  let itemized_amount := |itemized.total_amount|
  let ynab_amount := |ynab.amount|
  let amount_diff := |itemized_amount - ynab_amount|
  if max itemized_amount ynab_amount = 0 then
    .error "InvalidOperation: 0 / 0"
  else
    let amount_ratio := amount_diff / max itemized_amount ynab_amount
    let amount_score := amountTerm amount_ratio
    let payee_score :=
      match itemized.merchant_name, ynab.payee_name with
      | some merchant, some payee =>
          if merchant ≠ "" ∧ payee ≠ "" then sim merchant.toLower payee.toLower * 0.3
          else 0
      | _, _ => 0
    .ok (min (date_score + amount_score + payee_score) 1)

/-- Python's stable `matches.sort(key=lambda x: x[1], reverse=True)`:
insert each element before the first kept element whose score is at most
its own, preserving the original order of equal scores. -/
def insertByScoreDesc (x : YNABTransactionDB × ℚ) :
    List (YNABTransactionDB × ℚ) → List (YNABTransactionDB × ℚ)
  | [] => [x]
  | y :: ys => if y.2 ≤ x.2 then x :: y :: ys else y :: insertByScoreDesc x ys

/-- Stable descending sort by score (see `insertByScoreDesc`). -/
def sortByScoreDesc : List (YNABTransactionDB × ℚ) → List (YNABTransactionDB × ℚ)
  | [] => []
  | x :: xs => insertByScoreDesc x (sortByScoreDesc xs)

/-- `find_matches` (lines 27-84): filter the stored YNAB rows by the date
window and the amount window, score each candidate, keep scores above 0.3
and sort descending.  The amount window is computed from the major-unit
`total_amount` with no milliunit conversion, exactly as in the source
(lines 54-60). -/
def find_matches (sim : String → String → ℚ) (db : List YNABTransactionDB)
    (itemized_transaction : ItemizedTransactionDB)
    (date_tolerance_days : ℤ := 3) (amount_tolerance_percent : ℚ := 0.05) :
    Except String (List (YNABTransactionDB × ℚ)) := do
  let start_date := itemized_transaction.transaction_date - date_tolerance_days
  let end_date := itemized_transaction.transaction_date + date_tolerance_days
  let amount := |itemized_transaction.total_amount|
  let amount_tolerance := amount * amount_tolerance_percent
  let min_amount := -(amount + amount_tolerance)
  let max_amount := -(amount - amount_tolerance)
  let candidates := db.filter (fun y =>
    decide (start_date ≤ y.date ∧ y.date ≤ end_date ∧
      min_amount ≤ y.amount ∧ y.amount ≤ max_amount))
  let match_list ← candidates.foldlM (fun acc candidate => do
    let score ← calculate_match_score sim itemized_transaction candidate
    pure (if score > 0.3 then acc ++ [(candidate, score)] else acc)) []
  pure (sortByScoreDesc match_list)

/-- The mutable state touched by `accept_match` / `reject_match`: the
match row and, through the `match.itemized_transaction` relationship, its
itemized transaction row. -/
structure MatcherState where
  matchRec : TransactionMatchDB
  itemized : ItemizedTransactionDB
deriving DecidableEq, Repr

/-- `accept_match` (lines 149-159): accept the match and copy its link,
score and method onto the itemized transaction. -/
def accept_match (s : MatcherState) (reviewed_by : String) : MatcherState :=
  { matchRec := { s.matchRec with status := "accepted", reviewed_by := some reviewed_by }
    itemized := { s.itemized with
      ynab_transaction_id := some s.matchRec.ynab_transaction_id
      match_status := "matched"
      match_confidence := some s.matchRec.match_score
      match_method := some s.matchRec.match_method } }

/-- `reject_match` (lines 161-164): set the match row's status and
reviewer; the itemized transaction row is not touched. -/
def reject_match (s : MatcherState) (reviewed_by : String) : MatcherState :=
  { s with matchRec := { s.matchRec with
      status := "rejected", reviewed_by := some reviewed_by } }

/-! ## Amazon "Request My Data" integration (`integrations/amazon.py`)

`csv.DictReader` yields a header list and one string-keyed mapping per
data row; the embedding takes the header list (`reader.fieldnames`) and
the rows (as association lists) directly.  Errors raised as `ValueError`
f-strings carry interpolated values; each becomes a constructor of
`AmazonParseError`, with `AmazonParseError.message` rendering the exact
message text where it is built from whole strings.  Python-standard-library
string parsing (`decimal.Decimal(str)`, `int(str)`,
`datetime.strptime(_, "%m/%d/%Y")`) is modelled by the `decimalOfString?`,
`intOfString?` and `parseDateMDY?` functions below (plain decimal and
integer literals; exotic `Decimal` forms such as scientific notation are
not modelled — no claim depends on them). -/

/-- One CSV data row: the string-keyed mapping `csv.DictReader` yields. -/
abbrev CsvRow := List (String × String)

/-- `row.get(key, default)`. -/
def rowGet (row : CsvRow) (key dflt : String) : String :=
  match row.lookup key with
  | some v => v
  | none => dflt

/-- Decimal digit value of a character, by its code point. -/
def digitVal? (c : Char) : Option ℕ :=
  let n := c.toNat
  if 48 ≤ n ∧ n ≤ 57 then some (n - 48) else none

/-- Split a character list into its leading run of digits and the rest. -/
def takeDigits : List Char → List ℕ × List Char
  | [] => ([], [])
  | c :: cs =>
      match digitVal? c with
      | some d => let (ds, rest) := takeDigits cs; (d :: ds, rest)
      | none => ([], c :: cs)

/-- The natural number denoted by a digit list (most significant first). -/
def natOfDigits (ds : List ℕ) : ℕ := ds.foldl (fun acc d => acc * 10 + d) 0

/-- An unsigned decimal literal `digits[.digits]` with at least one digit,
as a rational. -/
def parseUnsignedDecimal? (cs : List Char) : Option ℚ :=
  let (intDigits, rest) := takeDigits cs
  match rest with
  | [] => if intDigits = [] then none else some ((natOfDigits intDigits : ℕ) : ℚ)
  | '.' :: rest2 =>
      let (fracDigits, rest3) := takeDigits rest2
      if rest3 = [] ∧ (intDigits ≠ [] ∨ fracDigits ≠ []) then
        some (((natOfDigits intDigits : ℕ) : ℚ) +
          ((natOfDigits fracDigits : ℕ) : ℚ) / ((10 : ℚ) ^ fracDigits.length))
      else none
  | _ => none

/-- Models `decimal.Decimal(s)` on the plain literals Amazon exports use:
an optional sign, digits, an optional fractional part. -/
def decimalOfString? (s : String) : Option ℚ :=
  match s.data with
  | '-' :: cs => (parseUnsignedDecimal? cs).map (fun q => -q)
  | '+' :: cs => parseUnsignedDecimal? cs
  | cs => parseUnsignedDecimal? cs

/-- A digits-only natural number, as `strptime` reads one field. -/
def natOfString? (s : String) : Option ℕ :=
  let (ds, rest) := takeDigits s.data
  if ds ≠ [] ∧ rest = [] then some (natOfDigits ds) else none

/-- Models `int(s)`: an optional sign and digits. -/
def intOfString? (s : String) : Option ℤ :=
  match s.data with
  | '-' :: cs =>
      let (ds, rest) := takeDigits cs
      if ds ≠ [] ∧ rest = [] then some (-(natOfDigits ds : ℤ)) else none
  | '+' :: cs =>
      let (ds, rest) := takeDigits cs
      if ds ≠ [] ∧ rest = [] then some ((natOfDigits ds : ℕ) : ℤ) else none
  | cs =>
      let (ds, rest) := takeDigits cs
      if ds ≠ [] ∧ rest = [] then some ((natOfDigits ds : ℕ) : ℤ) else none

/-- Models `datetime.strptime(s, "%m/%d/%Y").date()`. -/
def parseDateMDY? (s : String) : Option PyDate :=
  match s.splitOn "/" with
  | [m, d, y] => do
      let mv ← natOfString? m
      let dv ← natOfString? d
      let yv ← natOfString? y
      if 1 ≤ mv ∧ mv ≤ 12 ∧ 1 ≤ dv ∧ dv ≤ 31 then
        some { year := (yv : ℤ), month := mv, day := dv }
      else none
  | _ => none

/-- The `ValueError`s of `integrations/amazon.py`, with the interpolated
context carried as fields. -/
inductive AmazonParseError : Type
  | emptyCsv : AmazonParseError
  | missingColumns (columns : List String) : AmazonParseError
  | orderHasNoItems (order_id : String) : AmazonParseError
  | invalidDateFormat (order_id raw : String) : AmazonParseError
  | itemHasNoTitle (order_id : String) : AmazonParseError
  | invalidAmount (order_id title : String) : AmazonParseError
deriving DecidableEq, Repr

/-- `", ".join(columns)`. -/
def joinCommaSep : List String → String
  | [] => ""
  | [c] => c
  | c :: c' :: rest => c ++ ", " ++ joinCommaSep (c' :: rest)

/-- The message text of each raised `ValueError`, as the f-strings at
`integrations/amazon.py` build it (numeric interpolations elided). -/
def AmazonParseError.message : AmazonParseError → String
  | .emptyCsv => "CSV file is empty or has no headers"
  | .missingColumns columns => "Missing required columns: " ++ joinCommaSep columns
  | .orderHasNoItems order_id => "Order " ++ order_id ++ " has no items"
  | .invalidDateFormat order_id raw =>
      "Invalid date format for order " ++ order_id ++ ": " ++ raw
  | .itemHasNoTitle order_id => "Item in order " ++ order_id ++ " has no title"
  | .invalidAmount order_id title =>
      "Invalid amount in order " ++ order_id ++ ", item '" ++ title ++ "'"

/-- `REQUIRED_COLUMNS` (`integrations/amazon.py`, lines 23-32).  A Python
set; modelled as the list of its members (only membership is used). -/
def amazonRequiredColumns : List String :=
  ["Order Date", "Order ID", "Title", "Purchase Price Per Unit",
   "Quantity", "Item Subtotal", "Item Subtotal Tax", "Item Total"]

/-- `_parse_item` (lines 202-265): parse one item row into a
`TransactionItem` plus the row's line total and tax accumulators.  All
five numeric parses share one `except` clause in the source, so each
failing parse reports the same `invalidAmount` error.  The pydantic
`calculate_unit_price` validator runs on construction. -/
def parseItemRow (item_row : CsvRow) (order_id : String) :
    Except AmazonParseError (TransactionItem × ℚ × ℚ) := do
  let title := (rowGet item_row "Title" "").trim
  if title = "" then
    throw (.itemHasNoTitle order_id)
  let some unit_price :=
      decimalOfString? (((rowGet item_row "Purchase Price Per Unit" "0").trim).replace "$" "")
    | throw (.invalidAmount order_id title)
  let some quantity := intOfString? ((rowGet item_row "Quantity" "1").trim)
    | throw (.invalidAmount order_id title)
  let some _item_subtotal :=
      decimalOfString? (((rowGet item_row "Item Subtotal" "0").trim).replace "$" "")
    | throw (.invalidAmount order_id title)
  let some item_tax :=
      decimalOfString? (((rowGet item_row "Item Subtotal Tax" "0").trim).replace "$" "")
    | throw (.invalidAmount order_id title)
  let some item_total :=
      decimalOfString? (((rowGet item_row "Item Total" "0").trim).replace "$" "")
    | throw (.invalidAmount order_id title)
  let category := (rowGet item_row "Category" "").trim
  let asin := (rowGet item_row "ASIN/ISBN" "").trim
  let seller := (rowGet item_row "Seller" "").trim
  let condition := (rowGet item_row "Condition" "").trim
  let item : TransactionItem :=
    TransactionItem.calculate_unit_price
      { name := title
        amount := unit_price
        quantity := some quantity
        unit_price := some unit_price
        tax_amount := some item_tax
        metadata := [("asin", asin), ("category", category), ("seller", seller),
                     ("condition", condition), ("order_id", order_id)] }
  pure (item, item_total, item_tax)

/-- `_parse_order` (lines 137-200): order-level fields from the first row,
then every row parsed into an item while the line totals and taxes
accumulate into the parent's `total_amount` and `total_tax`. -/
def parseOrder (order_id : String) (order_items : List CsvRow) :
    Except AmazonParseError ItemizedTransaction := do
  match order_items with
  | [] => throw (.orderHasNoItems order_id)
  | first_item :: _ =>
    let order_date_str := (rowGet first_item "Order Date" "").trim
    let some order_date := parseDateMDY? order_date_str
      | throw (.invalidDateFormat order_id order_date_str)
    let merchant_name := (rowGet first_item "Website" "Amazon.com").trim
    let merchant_name := if merchant_name = "" then "Amazon.com" else merchant_name
    let parsed ← order_items.foldlM
      (fun (acc : List TransactionItem × ℚ × ℚ) item_row => do
        let (item, item_total, item_tax) ← parseItemRow item_row order_id
        pure (acc.1 ++ [item], acc.2.1 + item_total, acc.2.2 + item_tax))
      ([], 0, 0)
    pure { transaction_date := some order_date
           total_amount := some parsed.2.1
           merchant_name := some merchant_name
           items := parsed.1
           source := some "amazon"
           source_transaction_id := some order_id
           total_tax := some parsed.2.2
           metadata := [("order_id", order_id),
                        ("import_source", "amazon_request_my_data")] }

/-- One step of `_group_items_by_order`'s `defaultdict` accumulation:
append the row to its order's group, creating the group at the end on
first sight (insertion order preserved, as Python dicts do). -/
def addRowToGroups (groups : List (String × List CsvRow)) (order_id : String)
    (row : CsvRow) : List (String × List CsvRow) :=
  match groups with
  | [] => [(order_id, [row])]
  | (k, rs) :: rest =>
      if k = order_id then (k, rs ++ [row]) :: rest
      else (k, rs) :: addRowToGroups rest order_id row

/-- `_group_items_by_order` (lines 118-135): stable partition of the rows
by the `Order ID` column; rows with an empty or missing order id are
dropped. -/
def groupItemsByOrder (rows : List CsvRow) : List (String × List CsvRow) :=
  rows.foldl (fun groups row =>
    let order_id := (rowGet row "Order ID" "").trim
    if order_id = "" then groups else addRowToGroups groups order_id row) []

/-- `parse_csv_file` (lines 66-116): refuse a header-less file, refuse a
header missing required columns (naming them), return `[]` on zero data
rows, otherwise group by order id and parse every group, propagating any
per-order failure. -/
def parse_csv_file (fieldnames : List String) (rows : List CsvRow) :
    Except AmazonParseError (List ItemizedTransaction) := do
  if fieldnames = [] then
    throw .emptyCsv
  let missing_columns := amazonRequiredColumns.filter (fun c => decide (c ∉ fieldnames))
  if missing_columns ≠ [] then
    throw (.missingColumns missing_columns)
  if rows = [] then
    pure []
  else
    let grouped_orders := groupItemsByOrder rows
    grouped_orders.mapM (fun g => parseOrder g.1 g.2)

/-! ## Helper lemmas -/

/-- `subtx_sum` of `_validate_subtransaction_amounts`: the milliunit sum
of a subtransaction list. -/
def subtransactionSum (subs : List YNABSubtransaction) : ℚ :=
  (subs.map (·.amount)).sum

/-- `expected_milliunits` of `_validate_subtransaction_amounts`:
`-int(expected_total * 1000)`. -/
def expectedMilliunits (expected_total : ℚ) : ℤ :=
  -(truncQ (expected_total * 1000))

theorem truncQ_intCast (n : ℤ) : truncQ (n : ℚ) = n := by
  unfold truncQ
  split <;> simp

theorem truncQ_eq_of_eq_intCast {q : ℚ} {n : ℤ} (h : q = (n : ℚ)) : truncQ q = n := by
  rw [h, truncQ_intCast]

theorem adjustLast_sum (l : List YNABSubtransaction) (adj : ℚ) (h : l ≠ []) :
    subtransactionSum (adjustLast l adj) = subtransactionSum l + adj := by
  induction l with
  | nil => exact absurd rfl h
  | cons s rest ih =>
      cases rest with
      | nil => simp [adjustLast, subtransactionSum]
      | cons s' rest' =>
          have := ih (by simp)
          simp only [adjustLast, subtransactionSum, List.map_cons, List.sum_cons] at *
          rw [this]
          ring

theorem adjustLast_dropLast (l : List YNABSubtransaction) (adj : ℚ) :
    (adjustLast l adj).dropLast = l.dropLast := by
  induction l with
  | nil => rfl
  | cons s rest ih =>
      cases rest with
      | nil => rfl
      | cons s' rest' =>
          have hlen : adjustLast (s' :: rest') adj ≠ [] := by
            cases rest' <;> simp [adjustLast]
          simp only [adjustLast]
          rw [List.dropLast_cons_of_ne_nil hlen, List.dropLast_cons_of_ne_nil (by simp)]
          rw [ih]

theorem adjustLast_getLast? (l : List YNABSubtransaction) (adj : ℚ) (s : YNABSubtransaction)
    (h : l.getLast? = some s) :
    (adjustLast l adj).getLast? = some { s with amount := s.amount + adj } := by
  induction l with
  | nil => simp at h
  | cons hd rest ih =>
      cases rest with
      | nil =>
          simp only [List.getLast?_singleton] at h
          cases h
          rfl
      | cons s' rest' =>
          rw [List.getLast?_cons_cons] at h
          simp only [adjustLast]
          have hne : adjustLast (s' :: rest') adj ≠ [] := by
            cases rest' <;> simp [adjustLast]
          cases hadj : adjustLast (s' :: rest') adj with
          | nil => exact absurd hadj hne
          | cons a as =>
              rw [List.getLast?_cons_cons]
              rw [← hadj]
              exact ih h

/-- Case analysis of `_validate_subtransaction_amounts`: it errors, or it
returns a list that is empty or sums exactly to `expected_milliunits`. -/
theorem validateSubtransactionAmounts_cases (subs : List YNABSubtransaction) (a : ℚ) :
    (∃ msg, validateSubtransactionAmounts subs a = .error msg) ∨
    (∃ subs', validateSubtransactionAmounts subs a = .ok subs' ∧
      (subs' = [] ∨ subtransactionSum subs' = ((expectedMilliunits a : ℤ) : ℚ))) := by
  unfold validateSubtransactionAmounts
  by_cases hnil : subs = []
  · right
    exact ⟨subs, by rw [if_pos hnil], Or.inl hnil⟩
  · rw [if_neg hnil]
    by_cases hsum : subtransactionSum subs = ((expectedMilliunits a : ℤ) : ℚ)
    · right
      refine ⟨subs, ?_, Or.inr hsum⟩
      simp only [subtransactionSum, expectedMilliunits] at hsum
      rw [if_pos hsum]
    · simp only [subtransactionSum, expectedMilliunits] at hsum
      rw [if_neg hsum]
      by_cases hdiff :
          |(subs.map (·.amount)).sum - ((-(truncQ (a * 1000)) : ℤ) : ℚ)| ≤ 10
      · right
        refine ⟨_, by rw [if_pos hdiff], Or.inr ?_⟩
        rw [adjustLast_sum subs _ hnil]
        simp only [subtransactionSum, expectedMilliunits]
        push_cast
        ring
      · left
        exact ⟨_, by rw [if_neg hdiff]⟩

/-- `create_subtransactions_from_items` with a truthy `total_amount` is
exactly the validation of the emitted list. -/
theorem create_eq_validate (t : ItemizedTransaction) (a : ℚ)
    (hset : t.total_amount = some a) (ha : a ≠ 0)
    (include_tax include_discount : Bool) :
    create_subtransactions_from_items t include_tax include_discount =
      validateSubtransactionAmounts
        (emittedSubtransactions t include_tax include_discount) a := by
  unfold create_subtransactions_from_items
  rw [hset]
  simp only [if_neg ha]

/-! ## C1: the split-sum invariant -/

/-- C1 (amended): for every `ItemizedTransaction` whose `total_amount` is
set to a nonzero value, `create_subtransactions_from_items` either raises
or returns a list of subtransactions that is empty or whose amounts sum
exactly to `-int(total_amount * 1000)` milliunits (`int` truncating toward
zero, which agrees with `round` whenever `total_amount * 1000` is an
integer). -/
theorem split_sum_invariant (t : ItemizedTransaction) (a : ℚ)
    (hset : t.total_amount = some a) (ha : a ≠ 0)
    (include_tax include_discount : Bool) :
    (∃ msg, create_subtransactions_from_items t include_tax include_discount
      = .error msg) ∨
    (∃ subs, create_subtransactions_from_items t include_tax include_discount
      = .ok subs ∧
      (subs = [] ∨ subtransactionSum subs = ((expectedMilliunits a : ℤ) : ℚ))) := by
  rw [create_eq_validate t a hset ha]
  exact validateSubtransactionAmounts_cases _ a

/-- Concrete input for the C1 witness: two items, exact total. -/
def tSplitSum : ItemizedTransaction :=
  { items := [{ name := "Widget A", amount := 10 }, { name := "Widget B", amount := 15 }]
    total_amount := some 25 }

theorem split_sum_invariant_witness :
    (∃ msg, create_subtransactions_from_items tSplitSum true true = .error msg) ∨
    (∃ subs, create_subtransactions_from_items tSplitSum true true = .ok subs ∧
      (subs = [] ∨ subtransactionSum subs = ((expectedMilliunits 25 : ℤ) : ℚ))) :=
  split_sum_invariant tSplitSum 25 rfl (by norm_num) true true

/-- Concrete input refuting C1 as stated: no items, `total_amount` set. -/
def tEmptySplit : ItemizedTransaction := { items := [], total_amount := some 5 }

/-- C1 as stated fails: with `total_amount = 5` set and no items, the
builder neither raises nor returns subtransactions summing to
`-round(5 * 1000) = -5000`; it returns the empty list, whose sum is 0. -/
theorem split_sum_claim_counterexample :
    create_subtransactions_from_items tEmptySplit true true = .ok [] ∧
    subtransactionSum [] ≠ ((-(round ((5 : ℚ) * 1000)) : ℤ) : ℚ) := by
  constructor
  · norm_num [create_subtransactions_from_items, emittedSubtransactions,
      validateSubtransactionAmounts, tEmptySplit]
  · norm_num [subtransactionSum, round_eq]

/-! ## C2: rounding absorption adjusts only the last subtransaction -/

/-- C2 (amended): for every `ItemizedTransaction` whose `total_amount` is
set and nonzero and which emits at least one subtransaction, when the
emitted amounts differ from `expected = -int(total_amount * 1000)` by at
most 10 milliunits but are not equal to it, the builder succeeds, adds
exactly `expected - actual` to the last emitted subtransaction's amount,
and leaves every other emitted subtransaction unchanged. -/
theorem rounding_absorption (t : ItemizedTransaction) (a : ℚ)
    (hset : t.total_amount = some a) (ha : a ≠ 0)
    (include_tax include_discount : Bool)
    (hne : emittedSubtransactions t include_tax include_discount ≠ [])
    (hdiff : subtransactionSum (emittedSubtransactions t include_tax include_discount)
      ≠ ((expectedMilliunits a : ℤ) : ℚ))
    (hsmall : |subtransactionSum (emittedSubtransactions t include_tax include_discount)
      - ((expectedMilliunits a : ℤ) : ℚ)| ≤ 10) :
    ∃ subs lastE lastS,
      create_subtransactions_from_items t include_tax include_discount = .ok subs ∧
      subs.dropLast = (emittedSubtransactions t include_tax include_discount).dropLast ∧
      (emittedSubtransactions t include_tax include_discount).getLast? = some lastE ∧
      subs.getLast? = some lastS ∧
      lastS = { lastE with amount := lastE.amount +
        (((expectedMilliunits a : ℤ) : ℚ)
          - subtransactionSum (emittedSubtransactions t include_tax include_discount)) } := by
  rw [create_eq_validate t a hset ha]
  unfold validateSubtransactionAmounts
  rw [if_neg hne]
  have hdiff' :
      ¬((emittedSubtransactions t include_tax include_discount).map (·.amount)).sum
        = ((-(truncQ (a * 1000)) : ℤ) : ℚ) := by
    simpa [subtransactionSum, expectedMilliunits] using hdiff
  rw [if_neg hdiff']
  have hsmall' :
      |((emittedSubtransactions t include_tax include_discount).map (·.amount)).sum
        - ((-(truncQ (a * 1000)) : ℤ) : ℚ)| ≤ 10 := by
    simpa [subtransactionSum, expectedMilliunits] using hsmall
  rw [if_pos hsmall']
  obtain ⟨s, hs⟩ : ∃ s,
      (emittedSubtransactions t include_tax include_discount).getLast? = some s := by
    rw [← Option.isSome_iff_exists, List.getLast?_isSome]
    exact hne
  refine ⟨_, s, _, rfl, adjustLast_dropLast _ _, hs, ?_, rfl⟩
  exact adjustLast_getLast? _ _ s hs

/-- Concrete input for the C2 witness: items summing to one milliunit
short of the stated total. -/
def tRoundAbsorb : ItemizedTransaction :=
  { items := [{ name := "Widget A", amount := 10 }, { name := "Widget B", amount := 14.999 }]
    total_amount := some 25 }

/-- The emitted list of `tRoundAbsorb`, evaluated. -/
theorem emitted_tRoundAbsorb :
    emittedSubtransactions tRoundAbsorb true true =
      [{ amount := -10000, memo := some "Widget A", category_id := none },
       { amount := -14999, memo := some "Widget B", category_id := none }] := by
  simp only [emittedSubtransactions, itemSubtransaction, tRoundAbsorb, List.map_cons,
    List.map_nil]
  norm_num [truncQ]

theorem rounding_absorption_witness :
    ∃ subs lastE lastS,
      create_subtransactions_from_items tRoundAbsorb true true = .ok subs ∧
      subs.dropLast = (emittedSubtransactions tRoundAbsorb true true).dropLast ∧
      (emittedSubtransactions tRoundAbsorb true true).getLast? = some lastE ∧
      subs.getLast? = some lastS ∧
      lastS = { lastE with amount := lastE.amount +
        (((expectedMilliunits 25 : ℤ) : ℚ)
          - subtransactionSum (emittedSubtransactions tRoundAbsorb true true)) } :=
  rounding_absorption tRoundAbsorb 25 rfl (by norm_num) true true
    (by rw [emitted_tRoundAbsorb]; simp)
    (by rw [emitted_tRoundAbsorb]
        norm_num [subtransactionSum, expectedMilliunits, truncQ])
    (by rw [emitted_tRoundAbsorb]
        norm_num [subtransactionSum, expectedMilliunits, truncQ])

/-- Concrete input refuting C2 as stated: no items, `total_amount` five
milliunits, so the empty emitted list is within one cent of the expected
total but there is no last subtransaction to adjust. -/
def tTinyTotal : ItemizedTransaction := { items := [], total_amount := some 0.005 }

/-- C2 as stated fails: on `tTinyTotal` the emitted amounts (sum 0) differ
from the expected total (-5 milliunits) by 5 ≤ 10 yet are not equal to it,
and the builder succeeds — but it returns the empty list unchanged, whose
sum still differs from the expected total, so nothing absorbed the
drift. -/
theorem rounding_absorption_claim_counterexample :
    subtransactionSum (emittedSubtransactions tTinyTotal true true)
      ≠ ((expectedMilliunits 0.005 : ℤ) : ℚ) ∧
    |subtransactionSum (emittedSubtransactions tTinyTotal true true)
      - ((expectedMilliunits 0.005 : ℤ) : ℚ)| ≤ 10 ∧
    create_subtransactions_from_items tTinyTotal true true = .ok [] ∧
    subtransactionSum [] ≠ ((expectedMilliunits 0.005 : ℤ) : ℚ) := by
  have hemit : emittedSubtransactions tTinyTotal true true = [] := by
    simp [emittedSubtransactions, tTinyTotal]
  have hexp : expectedMilliunits 0.005 = -5 := by
    norm_num [expectedMilliunits, truncQ]
  refine ⟨?_, ?_, ?_, ?_⟩
  · rw [hemit, hexp]; norm_num [subtransactionSum]
  · rw [hemit, hexp]; norm_num [subtransactionSum]
  · norm_num [create_subtransactions_from_items, emittedSubtransactions,
      validateSubtransactionAmounts, tTinyTotal]
  · rw [hexp]; norm_num [subtransactionSum]

/-! ## C3: one subtransaction per item, in order, before tax/discount -/

/-- The emitted list always starts with the per-item subtransactions, in
item order; any tax/discount entries form the remainder. -/
theorem emittedSubtransactions_items_prefix (t : ItemizedTransaction)
    (include_tax include_discount : Bool) :
    ∃ rest, emittedSubtransactions t include_tax include_discount
      = t.items.map itemSubtransaction ++ rest := by
  unfold emittedSubtransactions
  cases htax : t.total_tax with
  | none =>
      cases hdisc : t.total_discount with
      | none => exact ⟨[], by simp⟩
      | some d =>
          dsimp only
          split_ifs with h
          · exact ⟨_, rfl⟩
          · exact ⟨[], by simp⟩
  | some tax =>
      cases hdisc : t.total_discount with
      | none =>
          dsimp only
          split_ifs with h
          · exact ⟨_, rfl⟩
          · exact ⟨[], by simp⟩
      | some d =>
          dsimp only
          split_ifs with h h'
          · exact ⟨_, List.append_assoc _ _ _⟩
          · exact ⟨_, rfl⟩
          · exact ⟨_, rfl⟩
          · exact ⟨[], by simp⟩

/-- C3 (amended): for every item, taken in list order, the builder emits
at that item's position a subtransaction whose amount is
`-|int(item.amount * 1000)|` milliunits (`int` truncating toward zero,
which agrees with `round` whenever `item.amount * 1000` is an integer),
whose memo is the item's name and whose category is null; the first
`len(items)` emitted subtransactions are exactly the per-item ones, so all
of them precede any tax or discount subtransaction. -/
theorem items_emitted_in_order (t : ItemizedTransaction)
    (include_tax include_discount : Bool) (i : ℕ) (item : TransactionItem)
    (hi : t.items.get? i = some item) :
    (emittedSubtransactions t include_tax include_discount).get? i
      = some (itemSubtransaction item) ∧
    (emittedSubtransactions t include_tax include_discount).take t.items.length
      = t.items.map itemSubtransaction ∧
    (itemSubtransaction item).amount
      = (((-((truncQ (item.amount * 1000)).natAbs : ℤ)) : ℤ) : ℚ) ∧
    (itemSubtransaction item).memo = some item.name ∧
    (itemSubtransaction item).category_id = none := by
  obtain ⟨rest, hrest⟩ :=
    emittedSubtransactions_items_prefix t include_tax include_discount
  obtain ⟨hlen, -⟩ := List.get?_eq_some.1 hi
  refine ⟨?_, ?_, rfl, rfl, rfl⟩
  · rw [hrest, List.get?_append (by rwa [List.length_map]), List.get?_map, hi]
    rfl
  · rw [hrest, ← List.length_map t.items itemSubtransaction]
    exact List.take_left _ _

/-- Concrete input for the C3 witness: two items and a tax entry. -/
def tItemOrder : ItemizedTransaction :=
  { items := [{ name := "Widget A", amount := 10 }, { name := "Widget B", amount := 15 }]
    total_tax := some 1.88 }

theorem items_emitted_in_order_witness :
    (emittedSubtransactions tItemOrder true true).get? 0
      = some (itemSubtransaction { name := "Widget A", amount := 10 }) ∧
    (emittedSubtransactions tItemOrder true true).take tItemOrder.items.length
      = tItemOrder.items.map itemSubtransaction ∧
    (itemSubtransaction { name := "Widget A", amount := 10 }).amount
      = (((-((truncQ (((10 : ℚ)) * 1000)).natAbs : ℤ)) : ℤ) : ℚ) ∧
    (itemSubtransaction { name := "Widget A", amount := 10 }).memo
      = some "Widget A" ∧
    (itemSubtransaction { name := "Widget A", amount := 10 }).category_id = none :=
  items_emitted_in_order tItemOrder true true 0 { name := "Widget A", amount := 10 } rfl

/-- Concrete input refuting C3's `round` claim: an item whose amount in
milliunits is fractional. -/
def tFractionalItem : ItemizedTransaction :=
  { items := [{ name := "Odd", amount := 10.0006 }] }

/-- C3 as stated fails: the item with amount 10.0006 is emitted at -10000
milliunits (truncation), not at `-|round(10.0006 * 1000)| = -10001`. -/
theorem items_emitted_round_counterexample :
    (emittedSubtransactions tFractionalItem true true).map (·.amount) = [(-10000 : ℚ)] ∧
    ((-(((round ((10.0006 : ℚ) * 1000)).natAbs : ℤ)) : ℤ) : ℚ) = -10001 ∧
    ((-10000 : ℚ)) ≠ -10001 := by
  refine ⟨?_, ?_, by norm_num⟩
  · simp only [emittedSubtransactions, itemSubtransaction, tFractionalItem,
      List.map_cons, List.map_nil]
    norm_num [truncQ]
  · norm_num [round_eq]

/-! ## C9: empty item list short-circuits the sum validation -/

/-- C9: with no items and absent-or-zero tax and discount, the builder
returns the empty list without raising, whatever `total_amount` is — the
sum validation returns immediately on an empty subtransaction list. -/
theorem empty_items_yield_empty_split (t : ItemizedTransaction)
    (hitems : t.items = [])
    (htax : t.total_tax = none ∨ t.total_tax = some 0)
    (hdisc : t.total_discount = none ∨ t.total_discount = some 0)
    (include_tax include_discount : Bool) :
    create_subtransactions_from_items t include_tax include_discount = .ok [] := by
  have hemit : emittedSubtransactions t include_tax include_discount = [] := by
    unfold emittedSubtransactions
    rcases htax with h | h <;> rcases hdisc with h' | h' <;> simp [h, h', hitems]
  unfold create_subtransactions_from_items
  rw [hemit]
  cases hta : t.total_amount with
  | none => rfl
  | some a =>
      by_cases haz : a = 0
      · simp [haz]
      · simp [haz, validateSubtransactionAmounts]

/-- Concrete input for the C9 witness: empty items, zero tax, nonzero
`total_amount`. -/
def tNoItems : ItemizedTransaction :=
  { items := [], total_amount := some 25, total_tax := some 0 }

theorem empty_items_yield_empty_split_witness :
    create_subtransactions_from_items tNoItems true true = .ok [] :=
  empty_items_yield_empty_split tNoItems rfl (Or.inr rfl) (Or.inl rfl) true true

/-! ## C6: monotonicity of the date and amount score terms -/

theorem dateTerm_nonneg (d : ℕ) : 0 ≤ dateTerm d := by
  unfold dateTerm
  split_ifs <;> norm_num

theorem amountTerm_nonneg (r : ℚ) : 0 ≤ amountTerm r := by
  unfold amountTerm
  split_ifs <;> norm_num

theorem amountTerm_le (r : ℚ) : amountTerm r ≤ 0.4 := by
  unfold amountTerm
  split_ifs <;> norm_num

/-- C6: a larger absolute date difference never increases the date term,
and (for the nonnegative ratios the code produces) a larger amount ratio
never increases the amount term. -/
theorem match_terms_monotone :
    (∀ d d' : ℕ, d ≤ d' → dateTerm d' ≤ dateTerm d) ∧
    (∀ r r' : ℚ, 0 ≤ r → r ≤ r' → amountTerm r' ≤ amountTerm r) := by
  constructor
  · intro d d' h
    unfold dateTerm
    split_ifs <;> first | (exfalso; omega) | norm_num
  · intro r r' h0 h
    rcases h0.eq_or_lt with hz | hpos
    · have h4 := amountTerm_le r'
      rw [← hz]
      simpa [amountTerm] using h4
    · unfold amountTerm
      rw [if_neg (ne_of_gt hpos), if_neg (ne_of_gt (lt_of_lt_of_le hpos h))]
      split_ifs <;> first | (exfalso; linarith) | norm_num

theorem match_terms_monotone_witness :
    dateTerm 5 ≤ dateTerm 2 ∧ amountTerm (1/2) ≤ amountTerm (1/100) :=
  ⟨match_terms_monotone.1 2 5 (by norm_num),
   match_terms_monotone.2 (1/100) (1/2) (by norm_num) (by norm_num)⟩

/-! ## C5: match score bounds -/

/-- C5 (amended): for every itemized/ledger pair with at least one nonzero
amount, the scoring function returns a score `s` with `0 ≤ s ≤ 1`, for any
string-similarity function ranging in `[0, 1]`; when both amounts are zero
the `Decimal` ratio division raises instead of returning a value. -/
theorem match_score_bounds (sim : String → String → ℚ)
    (hsim : ∀ a b, 0 ≤ sim a b ∧ sim a b ≤ 1)
    (itemized : ItemizedTransactionDB) (ynab : YNABTransactionDB)
    (h : ¬(itemized.total_amount = 0 ∧ ynab.amount = 0)) :
    ∃ s, calculate_match_score sim itemized ynab = .ok s ∧ 0 ≤ s ∧ s ≤ 1 := by
  unfold calculate_match_score
  have hmax : max |itemized.total_amount| |ynab.amount| ≠ 0 := by
    intro hm
    apply h
    have h1 : |itemized.total_amount| ≤ 0 := hm ▸ le_max_left _ _
    have h2 : |ynab.amount| ≤ 0 := hm ▸ le_max_right _ _
    exact ⟨abs_eq_zero.1 (le_antisymm h1 (abs_nonneg _)),
      abs_eq_zero.1 (le_antisymm h2 (abs_nonneg _))⟩
  rw [if_neg hmax]
  refine ⟨_, rfl, ?_, min_le_right _ 1⟩
  dsimp only
  apply le_min ?_ (by norm_num)
  have hpayee : (0 : ℚ) ≤
      match itemized.merchant_name, ynab.payee_name with
      | some merchant, some payee =>
          if merchant ≠ "" ∧ payee ≠ "" then sim merchant.toLower payee.toLower * 0.3
          else 0
      | _, _ => 0 := by
    rcases itemized.merchant_name with _ | m <;> rcases ynab.payee_name with _ | p
    · norm_num
    · norm_num
    · norm_num
    · dsimp only
      split_ifs
      · exact mul_nonneg (hsim _ _).1 (by norm_num)
      · norm_num
  have := add_nonneg (add_nonneg (dateTerm_nonneg ((itemized.transaction_date - ynab.date).natAbs))
    (amountTerm_nonneg (|(|itemized.total_amount|) - (|ynab.amount|)| /
      max |itemized.total_amount| |ynab.amount|))) hpayee
  exact this

/-- Similarity instantiation for the C5 witness. -/
def simHalf : String → String → ℚ := fun _ _ => 1/2

/-- Concrete pair for the C5 witness. -/
def itScoreW : ItemizedTransactionDB :=
  { id := "it-1", transaction_date := 0, total_amount := 35.62
    merchant_name := some "Amazon.com" }

/-- Concrete ledger row for the C5 witness. -/
def yScoreW : YNABTransactionDB :=
  { id := "y-1", ynab_id := "y-1", account_id := "acct", amount := -35620
    date := 0, payee_name := some "Amazon.com" }

theorem match_score_bounds_witness :
    ∃ s, calculate_match_score simHalf itScoreW yScoreW = .ok s ∧ 0 ≤ s ∧ s ≤ 1 :=
  match_score_bounds simHalf (fun a b => by norm_num [simHalf]) itScoreW yScoreW
    (by norm_num [itScoreW, yScoreW])

/-- Concrete zero-amount pair refuting C5's totality parenthetical. -/
def itZeroAmount : ItemizedTransactionDB :=
  { id := "it-0", transaction_date := 0, total_amount := 0 }

/-- Concrete zero-amount ledger row for the C5 counterexample. -/
def yZeroAmount : YNABTransactionDB :=
  { id := "y-0", ynab_id := "y-0", account_id := "acct", amount := 0, date := 0 }

/-- C5 as stated fails: when both amounts are zero the amount-ratio
division `0 / max(0, 0)` raises instead of producing a score. -/
theorem match_score_zero_pair_counterexample :
    calculate_match_score (fun _ _ => 0) itZeroAmount yZeroAmount
      = .error "InvalidOperation: 0 / 0" := by
  norm_num [calculate_match_score, itZeroAmount, yZeroAmount]

/-! ## C7: rejecting a match does not touch the itemized transaction -/

/-- C7: `reject_match` sets the match row's status to "rejected" and
leaves the itemized transaction row — in particular its ledger link,
match status, confidence and method — exactly as it was. -/
theorem reject_match_frame (s : MatcherState) (reviewed_by : String) :
    (reject_match s reviewed_by).matchRec.status = "rejected" ∧
    (reject_match s reviewed_by).itemized = s.itemized ∧
    (reject_match s reviewed_by).itemized.ynab_transaction_id
      = s.itemized.ynab_transaction_id ∧
    (reject_match s reviewed_by).itemized.match_status = s.itemized.match_status ∧
    (reject_match s reviewed_by).itemized.match_confidence
      = s.itemized.match_confidence ∧
    (reject_match s reviewed_by).itemized.match_method = s.itemized.match_method :=
  ⟨rfl, rfl, rfl, rfl, rfl, rfl⟩

/-! ## C10: total validation on an unlinked transaction raises -/

/-- C10: `validate_transaction_totals` on a transaction that has items but
no linked YNAB transaction reads `ynab_transaction.amount` through `None`
and raises, so the unlinked case never returns a `(bool, messages)`
report. -/
theorem validate_unlinked_raises (t : ItemizedTransaction)
    (hitems : t.items ≠ []) (hy : t.ynab_transaction = none) :
    validate_transaction_totals t
      = .error "AttributeError: 'NoneType' object has no attribute 'amount'" := by
  unfold validate_transaction_totals
  rw [if_neg hitems]
  dsimp only
  rw [hy]

/-- Concrete unlinked transaction for the C10 witness. -/
def tUnlinked : ItemizedTransaction :=
  { items := [{ name := "Widget A", amount := 10 }] }

theorem validate_unlinked_raises_witness :
    validate_transaction_totals tUnlinked
      = .error "AttributeError: 'NoneType' object has no attribute 'amount'" :=
  validate_unlinked_raises tUnlinked (by simp [tUnlinked]) rfl

/-! ## C4: the candidate amount window -/

/-- Itemized transaction of the spec's concrete matching scenario:
dated day `d`, major-unit total 35.62, merchant "Amazon.com". -/
def itAmazonMatch : ItemizedTransactionDB :=
  { id := "it-amz", transaction_date := 738900, total_amount := 35.62
    merchant_name := some "Amazon.com" }

/-- Ledger row of the same scenario: same day, -35620 milliunits (the
YNAB API's representation of -$35.62), payee "Amazon.com". -/
def yAmazonMatch : YNABTransactionDB :=
  { id := "y-amz", ynab_id := "y-amz", account_id := "acct", amount := -35620
    date := 738900, payee_name := some "Amazon.com" }

/-- C4 fails on the code: the ledger row's signed milliunit amount -35620
lies inside the claimed minor-unit window
`[-(A + A·p)·1000, -(A - A·p)·1000] = [-37401, -33839]` (and its date
inside the date window), yet `find_matches` returns no candidate at all,
because the source compares the milliunit-stored column against a
major-unit window `[-(A + A·p), -(A - A·p)] = [-37.401, -33.839]` with no
`×1000` conversion. -/
theorem find_matches_amount_window_bug :
    (-((|(35.62 : ℚ)|) + (|(35.62 : ℚ)|) * 0.05) * 1000 ≤ yAmazonMatch.amount ∧
      yAmazonMatch.amount ≤ -((|(35.62 : ℚ)|) - (|(35.62 : ℚ)|) * 0.05) * 1000 ∧
      itAmazonMatch.transaction_date - 3 ≤ yAmazonMatch.date ∧
      yAmazonMatch.date ≤ itAmazonMatch.transaction_date + 3) ∧
    find_matches (fun _ _ => 1) [yAmazonMatch] itAmazonMatch 3 0.05 = .ok [] := by
  have habs : |(35.62 : ℚ)| = 35.62 := abs_of_pos (by norm_num)
  constructor
  · refine ⟨?_, ?_, ?_, ?_⟩ <;>
      simp only [yAmazonMatch, itAmazonMatch, habs] <;> norm_num
  · simp only [find_matches, itAmazonMatch, yAmazonMatch, habs]
    norm_num [List.filter, sortByScoreDesc]
    rfl

/-! ## C8: missing required columns are all named -/

/-- Every member of a `", ".join`ed list occurs in the joined string. -/
theorem mem_joinCommaSep_substring (c : String) (cols : List String) (h : c ∈ cols) :
    c.data <:+: (joinCommaSep cols).data := by
  induction cols with
  | nil => simp at h
  | cons c' rest ih =>
      cases rest with
      | nil =>
          simp only [List.mem_singleton] at h
          subst h
          exact List.infix_refl _
      | cons c'' rest' =>
          rcases List.mem_cons.1 h with h | h
          · subst h
            refine ⟨[], (", " ++ joinCommaSep (c'' :: rest')).data, ?_⟩
            simp [joinCommaSep]
          · refine (ih h).trans ⟨(c' ++ ", ").data, [], ?_⟩
            simp [joinCommaSep]

/-- C8: when the observed header (present but) lacking required columns is
parsed, ingestion fails before reading any row, with a missing-columns
error that lists exactly the required columns absent from the header, and
whose rendered message names each of them. -/
theorem missing_columns_named (fieldnames : List String) (rows : List CsvRow)
    (hnf : fieldnames ≠ [])
    (hmiss : ∃ c ∈ amazonRequiredColumns, c ∉ fieldnames) :
    ∃ cols, parse_csv_file fieldnames rows = .error (.missingColumns cols) ∧
      cols = amazonRequiredColumns.filter (fun c => decide (c ∉ fieldnames)) ∧
      ∀ c, c ∈ amazonRequiredColumns → c ∉ fieldnames →
        c ∈ cols ∧ c.data <:+: ((AmazonParseError.missingColumns cols).message).data := by
  have hne : amazonRequiredColumns.filter (fun c => decide (c ∉ fieldnames)) ≠ [] := by
    obtain ⟨c, hc, hcf⟩ := hmiss
    intro hempty
    have hmem : c ∈ amazonRequiredColumns.filter (fun c => decide (c ∉ fieldnames)) := by
      rw [List.mem_filter]
      exact ⟨hc, by simpa using hcf⟩
    rw [hempty] at hmem
    simp at hmem
  refine ⟨amazonRequiredColumns.filter (fun c => decide (c ∉ fieldnames)), ?_, rfl, ?_⟩
  · unfold parse_csv_file
    rw [if_neg hnf]
    dsimp only
    rw [if_pos hne]
    rfl
  · intro c hc hcf
    have hmem : c ∈ amazonRequiredColumns.filter (fun c => decide (c ∉ fieldnames)) := by
      rw [List.mem_filter]
      exact ⟨hc, by simpa using hcf⟩
    refine ⟨hmem, (mem_joinCommaSep_substring c _ hmem).trans ?_⟩
    exact ⟨("Missing required columns: ").data, [], by simp [AmazonParseError.message]⟩

/-- The spec's concrete scenario 4: an Amazon header lacking the
"Item Total" column. -/
def amazonHeaderMissingItemTotal : List String :=
  ["Order Date", "Order ID", "Title", "Purchase Price Per Unit",
   "Quantity", "Item Subtotal", "Item Subtotal Tax"]

theorem missing_columns_named_witness :
    ∃ cols, parse_csv_file amazonHeaderMissingItemTotal []
        = .error (.missingColumns cols) ∧
      cols = amazonRequiredColumns.filter
        (fun c => decide (c ∉ amazonHeaderMissingItemTotal)) ∧
      ∀ c, c ∈ amazonRequiredColumns → c ∉ amazonHeaderMissingItemTotal →
        c ∈ cols ∧ c.data <:+: ((AmazonParseError.missingColumns cols).message).data :=
  missing_columns_named amazonHeaderMissingItemTotal []
    (by simp [amazonHeaderMissingItemTotal])
    ⟨"Item Total", by decide, by decide⟩

end YnabItemized
